import Mathlib

/-!
Verification of the central-event-system connection-pump subsystem.

The development shallowly embeds the two connection-pump variants:
* `HubConn` — the hub variant (`hubconnection` package): retry supervisor,
  read/write pumps, string-valued connection state.
* `Repeater` — the peer variant (`repeater` package): `StartConnection`,
  the pumper (liveness supervisor), and the read-pump error handling.
* `Base` — the shared data model (`hub/base` package): `EventWrapper` and
  the message-framing contract.

Loops over a socket are embedded as functions over an explicit list of the
inputs the loop would service (read results, select cases, dial outcomes),
producing the list of externally visible actions the code performs.
Wall-clock instants are natural numbers measured in seconds.
-/

namespace Base

/-- EventWrapper from hub/base/common.go: a routing topic (`Room`) plus an
opaque payload (`Event`, a byte slice, embedded as a list of byte values). -/
structure EventWrapper where
  Room : String
  Event : List Nat
  deriving DecidableEq, Repr

/-- Modelled from the spec: `ParseMessage`/`PrepareMessage` live in the
hub/base package, which is not present under src/ (only their callers are).
The spec's Message Framing contract: a frame is the topic followed by a
delimiter byte followed by the opaque payload; `Prepare` is total and
deterministic. The delimiter is the newline byte (10); room bytes are the
code points of the room string. -/
def frameDelim : Nat := 10

/-- Byte encoding of the room string (code points of its characters). -/
def roomBytes (s : String) : List Nat := s.toList.map Char.toNat

/-- Modelled from the spec: `PrepareMessage` frames an `EventWrapper` as
room bytes, delimiter, payload. Total and deterministic by construction. -/
def PrepareMessage (w : EventWrapper) : List Nat :=
  roomBytes w.Room ++ frameDelim :: w.Event

/-- Split a frame at the first delimiter byte: returns the room bytes and
the payload, or `none` when no delimiter occurs in the frame. -/
def splitFrame : List Nat → Option (List Nat × List Nat)
  | [] => none
  | b :: rest =>
    if b = frameDelim then some ([], rest)
    else
      match splitFrame rest with
      | none => none
      | some (r, p) => some (b :: r, p)

/-- Decode room bytes back to the room string. -/
def bytesToRoom (l : List Nat) : String := String.mk (l.map Char.ofNat)

/-- Modelled from the spec: `ParseMessage` decodes a frame into an
`EventWrapper`, failing with a malformed-frame error when the bytes cannot
be split into the wrapper shape. Total: never panics on arbitrary input. -/
def ParseMessage (b : List Nat) : Except String EventWrapper :=
  match splitFrame b with
  | none => Except.error "malformed-message"
  | some (r, p) => Except.ok ⟨bytesToRoom r, p⟩

/-- A valid wrapper for framing purposes: its room contains no delimiter
character (code point 10). -/
def validRoom (w : EventWrapper) : Prop := Char.ofNat 10 ∉ w.Room.toList

instance (w : EventWrapper) : Decidable (validRoom w) := by
  unfold validRoom; infer_instance

theorem splitFrame_append (r p : List Nat) (h : frameDelim ∉ r) :
    splitFrame (r ++ frameDelim :: p) = some (r, p) := by
  induction r with
  | nil => simp [splitFrame]
  | cons b rest ih =>
    simp only [List.mem_cons, not_or] at h
    simp only [List.cons_append, splitFrame]
    rw [if_neg (fun hb => h.1 hb.symm)]
    simp only [List.append_eq, ih h.2]

theorem splitFrame_eq_none (b : List Nat) (h : frameDelim ∉ b) :
    splitFrame b = none := by
  induction b with
  | nil => rfl
  | cons x rest ih =>
    simp only [List.mem_cons, not_or] at h
    simp only [splitFrame]
    rw [if_neg (fun hx => h.1 hx.symm)]
    simp only [ih h.2]

theorem frameDelim_not_mem_roomBytes (s : String)
    (h : Char.ofNat 10 ∉ s.toList) : frameDelim ∉ roomBytes s := by
  intro hmem
  simp only [roomBytes, List.mem_map] at hmem
  obtain ⟨c, hc, hceq⟩ := hmem
  have : c = Char.ofNat 10 := by
    have := Char.ofNat_toNat c
    rw [hceq] at this
    exact this.symm
  exact h (this ▸ hc)

theorem bytesToRoom_roomBytes (s : String) : bytesToRoom (roomBytes s) = s := by
  simp only [bytesToRoom, roomBytes, List.map_map]
  have : (Char.ofNat ∘ Char.toNat) = id := by
    funext c; exact Char.ofNat_toNat c
  rw [this, List.map_id]
  cases s; rfl

/-- Round-trip helper: parsing a prepared frame of a valid wrapper
recovers the wrapper. -/
theorem parse_prepare (w : EventWrapper) (h : validRoom w) :
    ParseMessage (PrepareMessage w) = Except.ok w := by
  unfold ParseMessage PrepareMessage
  rw [splitFrame_append _ _ (frameDelim_not_mem_roomBytes _ h)]
  simp [bytesToRoom_roomBytes]

end Base

/-- C5: Message framing round-trip law — for every valid `EventWrapper` w
(room free of the delimiter character), `ParseMessage (PrepareMessage w) = ok w`;
`PrepareMessage` is total and deterministic (it is a Lean function), and
`ParseMessage` fails with the malformed-frame error, without panicking, on
any byte sequence that cannot be decoded into the wrapper shape (no
delimiter present). -/
theorem C5_parse_prepare_roundtrip :
    (∀ w : Base.EventWrapper, Base.validRoom w →
        Base.ParseMessage (Base.PrepareMessage w) = Except.ok w) ∧
    (∀ b : List Nat, Base.frameDelim ∉ b →
        Base.ParseMessage b = Except.error "malformed-message") := by
  constructor
  · exact Base.parse_prepare
  · intro b hb
    unfold Base.ParseMessage
    rw [Base.splitFrame_eq_none b hb]

/-- Witness for C5 at concrete inputs: the wrapper ⟨"ab", [7, 8]⟩ survives
the round trip, and the delimiter-free bytes [65, 66] fail to parse. -/
theorem C5_parse_prepare_roundtrip_witness :
    Base.ParseMessage (Base.PrepareMessage ⟨"ab", [7, 8]⟩) =
      Except.ok ⟨"ab", [7, 8]⟩ ∧
    Base.ParseMessage [65, 66] = Except.error "malformed-message" :=
  ⟨C5_parse_prepare_roundtrip.1 ⟨"ab", [7, 8]⟩ (by decide),
   C5_parse_prepare_roundtrip.2 [65, 66] (by decide)⟩

namespace HubConn

/-- Retry interval in seconds (source: `retryInterval = 3 * time.Second`). -/
def retryInterval : Nat := 3

/-- Externally visible steps taken by `HubConnection.retryConnection`. -/
inductive RetryAction where
  | setState (s : String)
  | waitReadDone
  | waitWriteDone
  | connectCall
  | sleep (seconds : Nat)
  | startReadPump
  | startWritePump
  deriving DecidableEq, Repr

/-- The attempt loop of `retryConnection` (`err := openConnection(); for
err != nil { sleep(retryInterval); err = openConnection() }`), run against
an oracle list of dial outcomes (`true` = dial succeeded). Returns `none`
when the oracle is exhausted before a success (the loop would still be
running). -/
def attemptLoop : List Bool → Option (List RetryAction)
  | [] => none
  | ok :: rest =>
    if ok then some [RetryAction.connectCall]
    else
      match attemptLoop rest with
      | none => none
      | some t =>
        some (RetryAction.connectCall :: RetryAction.sleep retryInterval :: t)

/-- Trace of `HubConnection.retryConnection` starting from state `st`:
mark the state with the " retrying" suffix, wait for the read-done then the
write-done indicator, run the attempt loop, then set state "good" and start
both pumps. -/
def retryConnection (st : String) (dials : List Bool) :
    Option (List RetryAction) :=
  match attemptLoop dials with
  | none => none
  | some t =>
    some (RetryAction.setState (st ++ " retrying") ::
      RetryAction.waitReadDone :: RetryAction.waitWriteDone ::
      t ++ [RetryAction.setState "good",
            RetryAction.startReadPump, RetryAction.startWritePump])

theorem attemptLoop_replicate (K : Nat) :
    attemptLoop (List.replicate K false ++ [true]) =
      some ((List.replicate K
        [RetryAction.connectCall, RetryAction.sleep retryInterval]).flatten ++
          [RetryAction.connectCall]) := by
  induction K with
  | zero => rfl
  | succ n ih =>
    simp only [List.replicate_succ, List.cons_append, attemptLoop,
      if_neg (Bool.false_ne_true), List.append_eq, ih, List.flatten_cons,
      List.cons_append, List.nil_append, List.append_assoc]

theorem count_connectCall_join (K : Nat) :
    ((List.replicate K
        [RetryAction.connectCall, RetryAction.sleep retryInterval]).flatten ++
      [RetryAction.connectCall]).count RetryAction.connectCall = K + 1 := by
  induction K with
  | zero => rfl
  | succ n ih =>
    simp only [List.replicate_succ, List.flatten_cons, List.cons_append,
      List.nil_append, List.append_assoc] at *
    simp [List.count_cons, ih]

/-- Reachable values of the `state` field of a `HubConnection`, following
the assignment sites in the source: the Go zero value "" at construction;
"good" on `ConnectToHub` success (line 64) and on retry success (line 115);
"down" in the deferred cleanup of either pump (lines 125, 174); and the
`h.state = h.state + " retrying"` mark at the start of `retryConnection`
(line 91), whose two call sites are the `ConnectToHub` failure path (state
still "", line 58) and the write pump's deferred cleanup (state just set to
"down", line 179). -/
inductive StateReachable : String → Prop where
  | init : StateReachable ""
  | connectOk {s : String} : StateReachable s → StateReachable "good"
  | pumpDie {s : String} : StateReachable s → StateReachable "down"
  | connectFailRetry : StateReachable "" → StateReachable ("" ++ " retrying")
  | writeDieRetry : StateReachable "down" →
      StateReachable ("down" ++ " retrying")
  | retryOk {s : String} : StateReachable s → StateReachable "good"

theorem reachable_retrying : StateReachable " retrying" := by
  have h := StateReachable.connectFailRetry StateReachable.init
  simpa using h

theorem reachable_down_retrying : StateReachable "down retrying" := by
  have h := StateReachable.writeDieRetry
    (StateReachable.pumpDie StateReachable.init)
  simpa using h

end HubConn

/-- C3: the hub retry supervisor first waits for the read-completion and
write-completion indicators (after marking the state), then attempts
`openConnection` with a 3-second sleep between consecutive attempts and no
bound on the attempt count; with K consecutive dial failures followed by
one success it makes exactly K+1 connect calls, and only after the last,
successful call does it set state "good" (Active) and start both pumps. -/
theorem C3_retry_exactness (K : Nat) (st : String) :
    HubConn.retryConnection st (List.replicate K false ++ [true]) =
      some (HubConn.RetryAction.setState (st ++ " retrying") ::
        HubConn.RetryAction.waitReadDone ::
        HubConn.RetryAction.waitWriteDone ::
        ((List.replicate K [HubConn.RetryAction.connectCall,
            HubConn.RetryAction.sleep 3]).flatten ++
          [HubConn.RetryAction.connectCall,
           HubConn.RetryAction.setState "good",
           HubConn.RetryAction.startReadPump,
           HubConn.RetryAction.startWritePump])) ∧
    ((List.replicate K [HubConn.RetryAction.connectCall,
        HubConn.RetryAction.sleep 3]).flatten ++
      [HubConn.RetryAction.connectCall]).count
        HubConn.RetryAction.connectCall = K + 1 := by
  constructor
  · unfold HubConn.retryConnection
    rw [HubConn.attemptLoop_replicate K]
    simp [HubConn.retryInterval, List.append_assoc]
  · exact HubConn.count_connectCall_join K

/-- C4 counterexample: the hub connection's `state` field is a free-form
string, not a four-valued enumeration — the five pairwise-distinct values
"", "good", "down", " retrying" and "down retrying" are all reachable
(the last by a pump death followed by the retry mark `state += " retrying"`),
so the field does not range over exactly four enumerated values, and a
Down-like value ("down") is reached in normal hub operation. -/
theorem C4_counterexample :
    HubConn.StateReachable "" ∧ HubConn.StateReachable "good" ∧
    HubConn.StateReachable "down" ∧ HubConn.StateReachable " retrying" ∧
    HubConn.StateReachable "down retrying" ∧
    (["", "good", "down", " retrying", "down retrying"] :
      List String).Nodup :=
  ⟨HubConn.StateReachable.init,
   HubConn.StateReachable.connectOk HubConn.StateReachable.init,
   HubConn.StateReachable.pumpDie HubConn.StateReachable.init,
   HubConn.reachable_retrying,
   HubConn.reachable_down_retrying,
   by decide⟩

/-- C4 amended: the hub connection's `state` field is a free-form string
updated at four kinds of sites — set to "good" on (re)connect success, to
"down" when a pump's deferred cleanup runs, and suffixed with " retrying"
when a retry begins — and every reachable value is one of "", "good",
"down", " retrying", "down retrying"; the cycle of the running hub is
"" → "good" → "down" → "down retrying" → "good" → …, so a Down-like value
is reached (transiently) on every pump failure. -/
theorem C4_state_values (s : String) (h : HubConn.StateReachable s) :
    s ∈ (["", "good", "down", " retrying", "down retrying"] :
      List String) := by
  induction h with
  | init => simp
  | connectOk _ _ => simp
  | pumpDie _ _ => simp
  | connectFailRetry _ _ => simp
  | writeDieRetry _ _ => simp
  | retryOk _ _ => simp

/-- Witness for C4's amended theorem at the concrete reachable state
"down retrying". -/
theorem C4_state_values_witness :
    "down retrying" ∈ (["", "good", "down", " retrying", "down retrying"] :
      List String) :=
  C4_state_values "down retrying" HubConn.reachable_down_retrying

namespace HubConn

/-- Websocket binary message type tag (gorilla `websocket.BinaryMessage`). -/
def binaryMessage : Nat := 2

/-- Websocket pong message type tag (gorilla `websocket.PongMessage`). -/
def pongMessage : Nat := 10

/-- Normal-closure close code (gorilla `websocket.CloseNormalClosure`). -/
def closeNormalClosure : Nat := 1000

/-- One result of `conn.ReadMessage()` as seen by the hub read pump:
either a transport-level failure or a frame with a message type tag and
its bytes. -/
inductive ReadInput where
  | failure
  | frame (t : Nat) (b : List Nat)

/-- The hub read pump's main loop (`HubConnection.startReadPump`), run over
a list of successive read results: on a read error the loop returns; a
frame whose type is not binary is dropped and the loop continues; a binary
frame that fails `ParseMessage` is dropped and the loop continues; a
decodable binary frame is delivered on the read channel. Returns the list
of delivered events, in order. -/
def startReadPump : List ReadInput → List Base.EventWrapper
  | [] => []
  | ReadInput.failure :: _ => []
  | ReadInput.frame t b :: rest =>
    if t = binaryMessage then
      match Base.ParseMessage b with
      | Except.error _ => startReadPump rest
      | Except.ok m => m :: startReadPump rest
    else startReadPump rest

theorem startReadPump_valid_frames (ws : List Base.EventWrapper)
    (h : ∀ w ∈ ws, Base.validRoom w) :
    startReadPump (ws.map fun w =>
      ReadInput.frame binaryMessage (Base.PrepareMessage w)) = ws := by
  induction ws with
  | nil => rfl
  | cons w rest ih =>
    simp only [List.map_cons, startReadPump]
    rw [if_pos trivial, Base.parse_prepare w (h w (List.mem_cons_self w rest))]
    rw [ih fun x hx => h x (List.mem_cons_of_mem w hx)]

/-- Actions of the hub read pump's ping handler (`SetPingHandler` closure):
set the read deadline, write a pong control frame, record the last ping
time. -/
inductive PingAction where
  | setReadDeadline (t : Nat)
  | writeControl (msgType : Nat) (payload : List Nat) (deadline : Nat)
  | recordLastPing (t : Nat)
  deriving DecidableEq, Repr

/-- Is this ping-handler action a write of a control frame to the wire? -/
def isWireWrite : PingAction → Bool
  | PingAction.writeControl _ _ _ => true
  | _ => false

/-- The hub read pump's ping handler at instant `now`, with keepalive
window `pingWait` and write window `writeWait` (the constants live in the
incomingconnection package): extend the read deadline to now + pingWait,
write one pong control frame with an empty payload and deadline
now + writeWait, then record the last-ping timestamp. -/
def pingHandler (pingWait writeWait now : Nat) : List PingAction :=
  [PingAction.setReadDeadline (now + pingWait),
   PingAction.writeControl pongMessage [] (now + writeWait),
   PingAction.recordLastPing now]

/-- One case of the hub write pump's select: the outbound channel was
closed, a message arrived (with the oracle outcome of the socket write), or
the read-done signal fired. -/
inductive WriteInput where
  | closed
  | message (w : Base.EventWrapper) (writeOk : Bool)
  | readDoneSignal

/-- Externally visible actions of the hub write pump. -/
inductive WriteAction where
  | writeControlClose (code : Nat) (text : String)
  | writeData (b : List Nat)
  | requeueReadDone
  | closeSocket
  | setStateDown
  | signalWriteDone
  | startRetry
  deriving DecidableEq, Repr

/-- The deferred cleanup of `startWritePump`: close the socket, mark the
state "down", signal write completion, and invoke `retryConnection`. -/
def writePumpCleanup : List WriteAction :=
  [WriteAction.closeSocket, WriteAction.setStateDown,
   WriteAction.signalWriteDone, WriteAction.startRetry]

/-- The hub write pump (`HubConnection.startWritePump`) over a list of
successive select outcomes: on a closed outbound channel it writes one
normal-closure control frame with empty reason text and returns; on a
message it writes the prepared frame (returning on write failure); on the
read-done signal it re-posts the signal and returns. Any return runs the
deferred cleanup. -/
def startWritePump : List WriteInput → List WriteAction
  | [] => []
  | WriteInput.closed :: _ =>
    WriteAction.writeControlClose closeNormalClosure "" :: writePumpCleanup
  | WriteInput.message w ok :: rest =>
    if ok then WriteAction.writeData (Base.PrepareMessage w) ::
      startWritePump rest
    else WriteAction.writeData (Base.PrepareMessage w) :: writePumpCleanup
  | WriteInput.readDoneSignal :: _ =>
    WriteAction.requeueReadDone :: writePumpCleanup

/-- Is this write-pump action a data write to the socket? -/
def isDataWrite : WriteAction → Bool
  | WriteAction.writeData _ => true
  | _ => false

/-- Is this write-pump action a close control frame? -/
def isCloseControl : WriteAction → Bool
  | WriteAction.writeControlClose _ _ => true
  | _ => false

end HubConn

/-- C7: the hub read pump does not terminate on malformed or wrong-kind
input — a frame that is not binary is dropped and the loop continues, a
binary frame that fails to decode is dropped and the loop continues, and
one corrupt binary frame followed by the frames of N valid wrappers yields
exactly those N events on the read channel, in order. -/
theorem C7_malformed_resilience :
    (∀ (t : Nat) (b : List Nat) (rest : List HubConn.ReadInput),
      t ≠ HubConn.binaryMessage →
        HubConn.startReadPump (HubConn.ReadInput.frame t b :: rest) =
          HubConn.startReadPump rest) ∧
    (∀ (b : List Nat) (e : String) (rest : List HubConn.ReadInput),
      Base.ParseMessage b = Except.error e →
        HubConn.startReadPump
            (HubConn.ReadInput.frame HubConn.binaryMessage b :: rest) =
          HubConn.startReadPump rest) ∧
    (∀ (b : List Nat) (e : String) (ws : List Base.EventWrapper),
      Base.ParseMessage b = Except.error e →
      (∀ w ∈ ws, Base.validRoom w) →
        HubConn.startReadPump
            (HubConn.ReadInput.frame HubConn.binaryMessage b ::
              ws.map fun w => HubConn.ReadInput.frame HubConn.binaryMessage
                (Base.PrepareMessage w)) = ws) := by
  refine ⟨fun t b rest ht => ?_, fun b e rest he => ?_, fun b e ws he hw => ?_⟩
  · simp only [HubConn.startReadPump, if_neg ht]
  · simp only [HubConn.startReadPump]
    rw [if_pos trivial, he]
  · simp only [HubConn.startReadPump]
    rw [if_pos trivial, he]
    exact HubConn.startReadPump_valid_frames ws hw

/-- Witness for C7 at concrete inputs: a text frame (type 1) and a
delimiter-free binary frame [65] are both dropped, and [65] followed by two
valid wrappers delivers exactly those two wrappers in order. -/
theorem C7_malformed_resilience_witness :
    HubConn.startReadPump [HubConn.ReadInput.frame 1 [65]] =
      HubConn.startReadPump [] ∧
    HubConn.startReadPump
        [HubConn.ReadInput.frame HubConn.binaryMessage [65]] =
      HubConn.startReadPump [] ∧
    HubConn.startReadPump
        (HubConn.ReadInput.frame HubConn.binaryMessage [65] ::
          ([⟨"a", [1]⟩, ⟨"b", [2]⟩] : List Base.EventWrapper).map fun w =>
            HubConn.ReadInput.frame HubConn.binaryMessage
              (Base.PrepareMessage w)) =
      [⟨"a", [1]⟩, ⟨"b", [2]⟩] :=
  ⟨C7_malformed_resilience.1 1 [65] [] (by decide),
   C7_malformed_resilience.2.1 [65] "malformed-message" [] (by rfl),
   C7_malformed_resilience.2.2 [65] "malformed-message"
     [⟨"a", [1]⟩, ⟨"b", [2]⟩] (by rfl) (by decide)⟩

/-- C8: on receipt of a heartbeat probe at instant `now`, the hub read
pump's ping handler performs exactly one write to the wire — a pong
(acknowledgment) control frame with empty payload — resets the read
deadline to now + keepalive window, and records the last-probe
timestamp. -/
theorem C8_heartbeat (pingWait writeWait now : Nat) :
    (HubConn.pingHandler pingWait writeWait now).countP
        HubConn.isWireWrite = 1 ∧
    HubConn.PingAction.writeControl HubConn.pongMessage [] (now + writeWait)
      ∈ HubConn.pingHandler pingWait writeWait now ∧
    HubConn.PingAction.setReadDeadline (now + pingWait)
      ∈ HubConn.pingHandler pingWait writeWait now ∧
    HubConn.PingAction.recordLastPing now
      ∈ HubConn.pingHandler pingWait writeWait now := by
  refine ⟨?_, ?_, ?_, ?_⟩ <;>
    simp [HubConn.pingHandler, HubConn.isWireWrite, List.countP_cons]

/-- C9: when the outbound channel is closed, the hub write pump writes
exactly one close control frame — a normal closure (code 1000) with empty
reason text — and terminates (running only its deferred cleanup), with no
data writes at all. -/
theorem C9_close_handshake (rest : List HubConn.WriteInput) :
    HubConn.startWritePump (HubConn.WriteInput.closed :: rest) =
      HubConn.WriteAction.writeControlClose 1000 "" ::
        HubConn.writePumpCleanup ∧
    (HubConn.startWritePump (HubConn.WriteInput.closed :: rest)).countP
        HubConn.isCloseControl = 1 ∧
    (HubConn.startWritePump (HubConn.WriteInput.closed :: rest)).countP
        HubConn.isDataWrite = 0 := by
  refine ⟨rfl, ?_, ?_⟩ <;>
    simp [HubConn.startWritePump, HubConn.writePumpCleanup,
      HubConn.isCloseControl, HubConn.isDataWrite, List.countP_cons,
      HubConn.closeNormalClosure]

namespace Repeater

/-- Idle TTL in seconds (source: `TTL = 5 * time.Second`). -/
def TTL : Nat := 5

/-- Internal channel buffer size (source: `readBufferSize = 1024`). -/
def readBufferSize : Nat := 1024

/-- Internal channel buffer size (source: `writeBufferSize = 1024`). -/
def writeBufferSize : Nat := 1024

/-- The fields of the pumping station that `StartConnection` fills in
directly: identifiers and the capacities of the channels it allocates. -/
structure PumpingStationCfg where
  ID : String
  Room : String
  readChannelCap : Nat
  writeChannelCap : Nat
  sendChannelCap : Nat
  readExitCap : Nat
  writeExitCap : Nat
  errorChanCap : Nat
  deriving DecidableEq, Repr

/-- StartConnection from the repeater package: builds the buffers, starts
`start` asynchronously, and returns the station together with its error
result — which is the literal `nil` (`return toreturn, nil`), decided
before the dial is ever attempted. -/
def StartConnection (proc room : String) :
    PumpingStationCfg × Option String :=
  (⟨proc, room, readBufferSize, writeBufferSize, writeBufferSize, 1, 1, 2⟩,
   none)

/-- Steps taken by the asynchronous `PumpingStation.start`. -/
inductive StartAction where
  | dbLookup
  | dialAttempt
  | unregister
  | startReadPump
  | startWritePump
  | runPumper
  deriving DecidableEq, Repr

/-- Trace of `PumpingStation.start` given the outcomes of the device
lookup and of the websocket dial: on lookup failure, unregister and
return; on dial failure, unregister and return; on success, start both
pumps and run the pumper. -/
def start (dbOk dialOk : Bool) : List StartAction :=
  StartAction.dbLookup ::
    (if dbOk then
      StartAction.dialAttempt ::
        (if dialOk then
          [StartAction.startReadPump, StartAction.startWritePump,
           StartAction.runPumper]
        else [StartAction.unregister])
    else [StartAction.unregister])

/-- Does this start action launch a pump or the pumper? -/
def isPumpStart : StartAction → Bool
  | StartAction.startReadPump => true
  | StartAction.startWritePump => true
  | StartAction.runPumper => true
  | _ => false

/-- One select case serviced by `startPumper`: the TTL ticker fired, an
error arrived on the error channel, an item arrived on the external send
channel, or an item arrived on the internal read channel. Events are
embedded as naturals. -/
inductive PumperCase where
  | tick
  | errorReported
  | sendItem (e : Nat)
  | readItem (e : Nat)
  deriving DecidableEq, Repr

/-- Externally visible actions of `startPumper`. -/
inductive PumperAction where
  | setReadTimeout (t : Nat)
  | setWriteTimeout (t : Nat)
  | forwardToWritePump (e : Nat)
  | forwardToReceiveChannel (e : Nat)
  | unregister
  | signalWriteExit
  | signalReadExit
  | sleep (seconds : Nat)
  | closeSocket
  deriving DecidableEq, Repr

/-- The deferred cleanup of `startPumper`: unregister from the repeater,
signal the write exit then the read exit, sleep one TTL, close the
socket. -/
def pumperCleanup : List PumperAction :=
  [PumperAction.unregister, PumperAction.signalWriteExit,
   PumperAction.signalReadExit, PumperAction.sleep TTL,
   PumperAction.closeSocket]

/-- The body of the single select statement of `startPumper`, serviced at
instant `selTime`: the tick case checks the two timeouts and produces no
action (whether or not it returns through the idle branch); the error case
logs and returns; a send item refreshes the write timeout then forwards to
the internal write channel; a read item refreshes the read timeout then
forwards to the external receive channel. -/
def pumperSelectBody (selTime : Nat) : PumperCase → List PumperAction
  | PumperCase.tick => []
  | PumperCase.errorReported => []
  | PumperCase.sendItem e =>
    [PumperAction.setWriteTimeout (selTime + TTL),
     PumperAction.forwardToWritePump e]
  | PumperCase.readItem e =>
    [PumperAction.setReadTimeout (selTime + TTL),
     PumperAction.forwardToReceiveChannel e]

/-- Full trace of `startPumper` started at instant `t0` whose select
services the case `c` at instant `selTime`: the function initialises both
timeouts to t0 + TTL, starts the ticker, runs one select — the source has
no loop around it — and then, the function body being over, runs the
deferred cleanup. -/
def startPumper (t0 selTime : Nat) (c : PumperCase) : List PumperAction :=
  [PumperAction.setReadTimeout (t0 + TTL),
   PumperAction.setWriteTimeout (t0 + TTL)] ++
    pumperSelectBody selTime c ++ pumperCleanup

/-- Shape of a read error as seen by the peer read pump: whether it is a
websocket close error (and its close code), and whether it is a net.Error
that reports a timeout. -/
structure ReadError where
  isCloseErr : Bool
  closeCode : Nat
  isNetErr : Bool
  isTimeout : Bool
  deriving DecidableEq, Repr

/-- Close code 1001 (gorilla `websocket.CloseGoingAway`). -/
def closeGoingAway : Nat := 1001

/-- Gorilla's `IsUnexpectedCloseError(err, CloseGoingAway)`: the error is
a close error whose code is not in the expected list (here, not
going-away). -/
def isUnexpectedCloseError (e : ReadError) : Bool :=
  e.isCloseErr && !(e.closeCode == closeGoingAway)

/-- Outcome of the peer read pump's error branch. -/
inductive ReadErrOutcome where
  | renewDeadlineAndContinue (newDeadline : Nat)
  | exitSilently
  | reportAndExit
  deriving DecidableEq, Repr

/-- The error branch of `PumpingStation.startReadPump` at instant `now`:
an unexpected close error is logged and then falls through to the error
channel; otherwise, a net timeout either returns silently (when the read
exit signal is pending) or renews the read deadline to now + TTL and
continues; every remaining error is sent on the error channel and the
loop returns. -/
def startReadPumpErrBranch (now : Nat) (e : ReadError)
    (exitPending : Bool) : ReadErrOutcome :=
  if isUnexpectedCloseError e then ReadErrOutcome.reportAndExit
  else if e.isNetErr && e.isTimeout then
    if exitPending then ReadErrOutcome.exitSilently
    else ReadErrOutcome.renewDeadlineAndContinue (now + TTL)
  else ReadErrOutcome.reportAndExit

end Repeater

/-- C1 (code evaluated at the failing input): the peer pumper's select has
no enclosing loop, so servicing a single item from the external send
channel — here the event 42 at instant 3, with no error and both deadlines
still in the future — forwards the item and refreshes the write timeout
but then immediately runs the full termination cleanup instead of
continuing to service the connection. -/
theorem C1_pumper_exits_after_one_send :
    Repeater.startPumper 0 3 (Repeater.PumperCase.sendItem 42) =
      [Repeater.PumperAction.setReadTimeout 5,
       Repeater.PumperAction.setWriteTimeout 5,
       Repeater.PumperAction.setWriteTimeout 8,
       Repeater.PumperAction.forwardToWritePump 42,
       Repeater.PumperAction.unregister,
       Repeater.PumperAction.signalWriteExit,
       Repeater.PumperAction.signalReadExit,
       Repeater.PumperAction.sleep 5,
       Repeater.PumperAction.closeSocket] := by
  decide

/-- C2 counterexample: `StartConnection` returns a `nil` error before the
dial is attempted, so a handshake/dial failure is never reported to its
caller — the error component of the result is `none` — while the
asynchronous `start` with a failed dial unregisters the connection and
starts neither pump nor pumper. -/
theorem C2_counterexample :
    (Repeater.StartConnection "proc1" "room1").2 = none ∧
    Repeater.start true false =
      [Repeater.StartAction.dbLookup, Repeater.StartAction.dialAttempt,
       Repeater.StartAction.unregister] ∧
    (Repeater.start true false).countP Repeater.isPumpStart = 0 := by
  refine ⟨rfl, by decide, by decide⟩

/-- C2 amended: a handshake/dial failure is not reported to the caller of
`StartConnection` — the constructor returns a nil error unconditionally
(the connection is attempted asynchronously) — and on dial failure the
station unregisters itself from its repeater and the connection is never
started (no pump and no pumper runs). -/
theorem C2_dial_failure_not_started (proc room : String) :
    (Repeater.StartConnection proc room).2 = none ∧
    (Repeater.start true false).countP Repeater.isPumpStart = 0 ∧
    Repeater.StartAction.unregister ∈ Repeater.start true false ∧
    (Repeater.start false false).countP Repeater.isPumpStart = 0 ∧
    Repeater.StartAction.unregister ∈ Repeater.start false false := by
  refine ⟨rfl, by decide, by decide, by decide, by decide⟩

/-- C6: whatever case the pumper services, its termination runs the
deferred cleanup in source order — unregister from the owning repeater,
signal the write loop and the read loop to stop, sleep one TTL (5
seconds), and only then close the socket — so the cleanup is a suffix of
every pumper trace. -/
theorem C6_termination_cleanup (t0 selTime : Nat)
    (c : Repeater.PumperCase) :
    [Repeater.PumperAction.unregister,
     Repeater.PumperAction.signalWriteExit,
     Repeater.PumperAction.signalReadExit,
     Repeater.PumperAction.sleep 5,
     Repeater.PumperAction.closeSocket] <:+
      Repeater.startPumper t0 selTime c := by
  cases c <;> exact ⟨_, rfl⟩

/-- C10: in the peer read pump, a network-timeout read error is non-fatal
unless the read-exit signal is already pending — with no exit pending the
loop renews the read deadline to now + TTL and continues; with the exit
pending it returns without reporting; and every error that is neither a
net timeout nor a going-away close error is sent on the error channel and
terminates the loop. -/
theorem C10_read_error_handling (now : Nat) (e : Repeater.ReadError) :
    (e.isNetErr = true → e.isTimeout = true → e.isCloseErr = false →
      Repeater.startReadPumpErrBranch now e false =
        Repeater.ReadErrOutcome.renewDeadlineAndContinue
          (now + Repeater.TTL)) ∧
    (e.isNetErr = true → e.isTimeout = true → e.isCloseErr = false →
      Repeater.startReadPumpErrBranch now e true =
        Repeater.ReadErrOutcome.exitSilently) ∧
    (∀ exitPending : Bool,
      (e.isNetErr && e.isTimeout) = false →
      (e.isCloseErr && (e.closeCode == Repeater.closeGoingAway)) = false →
        Repeater.startReadPumpErrBranch now e exitPending =
          Repeater.ReadErrOutcome.reportAndExit) := by
  obtain ⟨ce, cc, nerrb, tmo⟩ := e
  refine ⟨?_, ?_, ?_⟩
  · intro hn ht hc
    simp only at hn ht hc
    subst hn; subst ht; subst hc
    simp [Repeater.startReadPumpErrBranch, Repeater.isUnexpectedCloseError]
  · intro hn ht hc
    simp only at hn ht hc
    subst hn; subst ht; subst hc
    simp [Repeater.startReadPumpErrBranch, Repeater.isUnexpectedCloseError]
  · intro exitPending hnt hgc
    simp only at hnt hgc
    simp only [Repeater.startReadPumpErrBranch,
      Repeater.isUnexpectedCloseError, hnt]
    cases ce with
    | false => simp
    | true =>
      simp only [Bool.true_and] at hgc
      simp [hgc]

/-- Witness for C10 at concrete errors: a pure net timeout (no exit
pending, then exit pending), and a close error with code 1002. -/
theorem C10_read_error_handling_witness :
    Repeater.startReadPumpErrBranch 7 ⟨false, 0, true, true⟩ false =
      Repeater.ReadErrOutcome.renewDeadlineAndContinue 12 ∧
    Repeater.startReadPumpErrBranch 7 ⟨false, 0, true, true⟩ true =
      Repeater.ReadErrOutcome.exitSilently ∧
    Repeater.startReadPumpErrBranch 7 ⟨true, 1002, false, false⟩ false =
      Repeater.ReadErrOutcome.reportAndExit :=
  ⟨(C10_read_error_handling 7 ⟨false, 0, true, true⟩).1 rfl rfl rfl,
   (C10_read_error_handling 7 ⟨false, 0, true, true⟩).2.1 rfl rfl rfl,
   (C10_read_error_handling 7 ⟨true, 1002, false, false⟩).2.2 false
     (by decide) (by decide)⟩
